import Mathlib

/-!
Verification development for the `redis-vs-workshop` repository.

The repository is a single Jupyter notebook (`demo.ipynb`) that wires
external LangChain components together: a markdown document loader, a
spaCy text splitter, Vertex AI embeddings and LLM clients, a Redis
vector store, a Redis semantic cache, and a Redis chat message history.

The notebook is embedded shallowly:
* every behaviour implemented by an external library or a remote API is
  an oracle field of `Env` (the embedding proves nothing about library
  internals, only about how the notebook wires them together);
* the notebook's sequence of code cells is the list `notebookCells` of
  values of the inductive `Cell`, transcribed cell by cell from
  `demo.ipynb` in source order;
* executing a cell is the function `execCell`, which threads the
  notebook's top-level variables (a `NBState`) and emits the externally
  observable operations as a trace of `Event`s;
* running the notebook is `runCells`, a left-to-right fold.
-/

/-- A LangChain document: page content plus its source path
(`langchain.schema.Document` as used by the notebook). -/
structure Document where
  pageContent : String
  source : String
deriving DecidableEq, Repr

/-- An HTTP response as `requests` models it: a status code and a body.
`requests.get` returns such a response for *any* status code; it raises
only on connection-level failures. -/
structure HttpResponse where
  status : Nat
  content : String
deriving DecidableEq, Repr

/-- Configuration of the spaCy text splitter, transcribed from
`SpacyTextSplitter(chunk_size=750, chunk_overlap=50, strip_whitespace=True)`. -/
structure SplitterCfg where
  chunkSize : Nat
  chunkOverlap : Nat
  stripWhitespace : Bool
deriving DecidableEq, Repr

/-- The splitter configuration the notebook supplies (demo.ipynb, split cell). -/
def splitterCfg : SplitterCfg :=
  { chunkSize := 750, chunkOverlap := 50, stripWhitespace := true }

/-- Configuration of a `VertexAI` LLM client. Sampling parameters are
carried as the literal tokens written in the notebook (they are consumed
as-is by the library; the notebook never computes with them). -/
structure LlmCfg where
  modelName : String
  maxOutputTokens : Nat
  temperature : String
deriving DecidableEq, Repr

/-- The LLM configuration of the QA chain:
`VertexAI(model_name='gemini-pro', max_output_tokens=512, temperature=0.3)`. -/
def qaLlmCfg : LlmCfg :=
  { modelName := "gemini-pro", maxOutputTokens := 512, temperature := "0.3" }

/-- The LLM configuration of the memory-less chat chain (temperature 0.2). -/
def chatLlmCfg : LlmCfg :=
  { modelName := "gemini-pro", maxOutputTokens := 512, temperature := "0.2" }

/-- The LLM configuration of the memory-backed chat chain (temperature 0.3). -/
def chatMemLlmCfg : LlmCfg :=
  { modelName := "gemini-pro", maxOutputTokens := 512, temperature := "0.3" }

/-- Configuration the notebook supplies to `RedisSemanticCache`:
a similarity-score (distance) threshold and a connection URL. -/
structure CacheCfg where
  scoreThreshold : String
  redisUrl : String
deriving DecidableEq, Repr

/-- The semantic-cache configuration, transcribed from
`RedisSemanticCache(embedding=embedding, redis_url="redis://localhost:6379",
score_threshold=0.1)`.  Note the connection URL is a string literal in the
notebook, not the externally supplied `REDIS_URL`. -/
def semanticCacheCfg : CacheCfg :=
  { scoreThreshold := "0.1", redisUrl := "redis://localhost:6379" }

/-- Reference to a Redis-backed chat message history: the Redis key the
messages live under and the URL of the Redis instance holding them. -/
structure ChatMemRef where
  key : String
  url : String
deriving DecidableEq, Repr

/-- An `LLMChain` as the notebook builds one: an LLM client, a prompt
template, and optionally a `ConversationBufferMemory` backed by a
`RedisChatMessageHistory`. -/
structure ChatChainCfg where
  llm : LlmCfg
  template : String
  memory : Option ChatMemRef
deriving DecidableEq, Repr

/-- Reference to the Redis vector store the notebook creates:
the index name and the URL of the Redis instance holding it. -/
structure VectorStoreRef where
  indexName : String
  url : String
deriving DecidableEq, Repr

/-- A `RetrievalQA` chain as the notebook builds one:
`RetrievalQA.from_chain_type(llm=llm, chain_type="stuff",
retriever=vectordb.as_retriever(), return_source_documents=True)`. -/
structure QaChainCfg where
  llm : LlmCfg
  chainType : String
  returnSourceDocuments : Bool
  retriever : VectorStoreRef
deriving DecidableEq, Repr

/-- Contents of one Redis instance, restricted to the three structures
the notebook uses it for: vector indexes (chunk storage), semantic-cache
entries (prompt, cached completion), and chat histories (lists of
(role, message) pairs). -/
structure RedisData where
  indexes : List (String × List Document)
  cacheEntries : List (String × String)
  histories : List (String × List (String × String))
deriving DecidableEq, Repr

/-- An empty Redis instance. -/
def emptyRedis : RedisData := { indexes := [], cacheEntries := [], histories := [] }

/-- Association-list lookup (first binding wins). -/
def alGet {α : Type} (l : List (String × α)) (k : String) : Option α :=
  match l with
  | [] => none
  | (k', v) :: t => if k' = k then some v else alGet t k

/-- Association-list update, inserting at the end when the key is absent. -/
def alSet {α : Type} (l : List (String × α)) (k : String) (v : α) :
    List (String × α) :=
  match l with
  | [] => [(k, v)]
  | (k', v') :: t => if k' = k then (k, v) :: t else (k', v') :: alSet t k v

/-- The data stored at one Redis URL (empty when no connection has
written there yet). -/
def redisAt (rs : List (String × RedisData)) (url : String) : RedisData :=
  (alGet rs url).getD emptyRedis

/-- Update the data stored at one Redis URL. -/
def redisModify (rs : List (String × RedisData)) (url : String)
    (f : RedisData → RedisData) : List (String × RedisData) :=
  match rs with
  | [] => [(url, f emptyRedis)]
  | (u, d) :: t => if u = url then (u, f d) :: t else (u, d) :: redisModify t url f

/-- Documents stored under an index name at a Redis URL. -/
def indexGet (rs : List (String × RedisData)) (url idx : String) : List Document :=
  (alGet (redisAt rs url).indexes idx).getD []

/-- Store documents under an index name at a Redis URL. -/
def indexPut (rs : List (String × RedisData)) (url idx : String)
    (ds : List Document) : List (String × RedisData) :=
  redisModify rs url fun d => { d with indexes := alSet d.indexes idx ds }

/-- The chat history stored under a key at a Redis URL. -/
def histGet (rs : List (String × RedisData)) (url key : String) :
    List (String × String) :=
  (alGet (redisAt rs url).histories key).getD []

/-- Overwrite the chat history stored under a key at a Redis URL. -/
def histSet (rs : List (String × RedisData)) (url key : String)
    (msgs : List (String × String)) : List (String × RedisData) :=
  redisModify rs url fun d => { d with histories := alSet d.histories key msgs }

/-- Append messages to the chat history stored under a key at a Redis URL. -/
def histAppend (rs : List (String × RedisData)) (url key : String)
    (msgs : List (String × String)) : List (String × RedisData) :=
  redisModify rs url fun d =>
    { d with histories :=
        alSet d.histories key ((alGet d.histories key).getD [] ++ msgs) }

/-- Record a semantic-cache entry (prompt, completion) at a Redis URL. -/
def cachePut (rs : List (String × RedisData)) (url prompt reply : String) :
    List (String × RedisData) :=
  redisModify rs url fun d => { d with cacheEntries := alSet d.cacheEntries prompt reply }

/-- Oracle environment: everything performed by external libraries, the
remote Vertex AI API, or supplied as external configuration.  The
embedding is parametric in it, so every theorem below is a statement
about how the notebook wires these components, never about their
internals. -/
structure Env where
  /-- `REDIS_URL`, loaded from `.env` by `dotenv.load_dotenv()`
  (external configuration; see `README.md`). -/
  redisUrl : String
  /-- Connection URL an external library falls back to when the notebook
  opens a connection without supplying one
  (`RedisChatMessageHistory` is opened with no `url` argument). -/
  libraryDefaultUrl : String
  /-- `requests.get`: raises on connection-level failures (`Except.error`),
  otherwise returns the response whatever its status code. -/
  http : String → Except String HttpResponse
  /-- `UnstructuredMarkdownLoader.load`: page contents parsed out of a
  markdown file's bytes. -/
  parseMd : String → List String
  /-- `SpacyTextSplitter.split_documents`. -/
  splitChunks : SplitterCfg → List Document → List Document
  /-- Redis vector similarity search over the stored chunks
  (`similarity_search_with_score` / `as_retriever`): stored docs,
  query, k. -/
  retrieve : List Document → String → Nat → List Document
  /-- `max_marginal_relevance_search`: stored docs, query, k, top_k. -/
  mmr : List Document → String → Nat → Nat → List Document
  /-- The remote LLM: completion for a prompt under an `LlmCfg`. -/
  llm : LlmCfg → String → String
  /-- `RedisSemanticCache` lookup: given the cache configuration, the
  stored entries and a prompt, an embedding-similarity hit if any. -/
  cacheMatch : CacheCfg → List (String × String) → String → Option String

/-- The notebook's top-level variables, threaded from cell to cell.
`raised` models an uncaught Python exception: once set, no further cell
body runs (the notebook adds no handler anywhere). -/
structure NBState where
  files : List (String × String)
  docs : List Document
  splits : List Document
  embeddingModel : Option String
  vectordb : Option VectorStoreRef
  question : String
  qaChainTemplateDef : Option String
  qa : Option QaChainCfg
  llm_cache : Option CacheCfg
  chat : Option ChatChainCfg
  redis : List (String × RedisData)
  lastReply : Option String
  raised : Option String
deriving DecidableEq, Repr

/-- The state in which a fresh top-to-bottom run of the notebook starts:
no variables bound yet, `langchain.llm_cache` unset, and an arbitrary
pre-existing content `redis0` in the Redis instances (earlier runs may
have persisted data there). -/
def initState (redis0 : List (String × RedisData)) : NBState :=
  { files := [], docs := [], splits := [], embeddingModel := none,
    vectordb := none, question := "", qaChainTemplateDef := none, qa := none,
    llm_cache := none, chat := none, redis := redis0, lastReply := none,
    raised := none }

/-- Externally observable operations a cell can perform. -/
inductive Event where
  | download (url : String) (path : String)
  | loadDocs (path : String)
  | splitDocs
  | embedChunks
  | storeVectors (indexName : String)
  | vectorQuery (question : String)
  | llmGenerate (prompt : String)
  | cacheRead (url : String)
  | cacheWrite (url : String)
  | historyClear (key : String)
  | historyRead (key : String)
  | historyAppend (key : String)
deriving DecidableEq, Repr

/-- The six pipeline stages named by the specification for the
retrieval-augmented QA use case. -/
inductive Stage where
  | load | split | embed | store | query | generate
deriving DecidableEq, Repr

/-- Which pipeline stage (if any) an event realises. -/
def stageOf : Event → Option Stage
  | .loadDocs _ => some .load
  | .splitDocs => some .split
  | .embedChunks => some .embed
  | .storeVectors _ => some .store
  | .vectorQuery _ => some .query
  | .llmGenerate _ => some .generate
  | _ => none

/-- `true` iff the event touches the semantic cache. -/
def isCacheEvent : Event → Bool
  | .cacheRead _ => true
  | .cacheWrite _ => true
  | _ => false

/-- No event of the trace touches the semantic cache. -/
def noCacheEvents (tr : List Event) : Bool :=
  tr.all fun e => !(isCacheEvent e)

/-- `download_file` as defined in the notebook:

```python
def download_file(url, filename):
    r = requests.get(url, allow_redirects=True)
    open(filename, 'wb').write(r.content)
```
(the body also imports `requests` first)

A connection-level failure of `requests.get` propagates as the library
raised it; any returned response — whatever its status code — has its
body written to `filename`, with no status check. -/
def download_file (env : Env) (url filename : String)
    (files : List (String × String)) : Except String (List (String × String)) :=
  match env.http url with
  | .error e => .error e
  | .ok r => .ok (alSet files filename r.content)

/-- URL of the aggregations documentation page (load-documents cell). -/
def aggsUrl : String :=
  "https://github.com/RediSearch/RediSearch/raw/master/docs/docs/advanced-concepts/aggregations.md"

/-- URL of the query-syntax documentation page (load-documents cell). -/
def querySyntaxUrl : String :=
  "https://github.com/RediSearch/RediSearch/raw/master/docs/docs/advanced-concepts/query_syntax.md"

/-- The question of the RAG demo (asked twice, cells 246 and 377). -/
def ragQuestion : String :=
  "How can I load the redis key name (Document ID) and filter results based on that field?"

/-- First question of the semantic-cache demo. -/
def cacheQuestion1 : String :=
  "How do I get documents withing a certain radius from a point?"

/-- Second question of the semantic-cache demo (a paraphrase of the first). -/
def cacheQuestion2 : String :=
  "How do I get documents withing a certain radius from a coordinate?"

/-- The `QA_TEMPLATE` string the notebook defines (and, as the
`RetrievalQA.from_chain_type` call shows, never passes to the chain). -/
def qaTemplateDef : String :=
  "\nUse the following pieces of context to answer the question at the end. \nIf you don\x27t know the answer, just say that you don\x27t know, don\x27t try to make up an answer.\nUse three sentences maximum. Keep the answer as concise as possible. \n-----\nContext: \n\n{context}\n-----\nQuestion: {question}\nHelpful Answer:"

/-- Prompt template of the memory-less chat chain (only input variable:
`human_input`). -/
def chatTemplateNoMem : String :=
  "You are an assistant designed to be able to assist with a wide range of tasks, \nfrom answering simple questions to providing in-depth explanations and discussions on a wide range of topics.\n\nHuman: {human_input}\nAssistant:"

/-- Prompt template of the memory-backed chat chain (input variables:
`history` and `human_input`). -/
def chatTemplateMem : String :=
  "You are an assistant designed to be able to assist with a wide range of tasks, \nfrom answering simple questions to providing in-depth explanations and discussions on a wide range of topics.\n\nUse the human input to generate a response that is relevant to the conversation history.\n----------\nHistory:\n\n{history}\n----------\nHuman: {human_input}\nAssistant:"

/-- The library's default prompt of the `stuff` QA chain (the notebook's
own `QA_TEMPLATE` is not passed to `RetrievalQA.from_chain_type`, so the
library default applies; per the notebook's own words, the chain
"stuffs the retrieved documents into the LLM"). -/
def stuffTemplate : String :=
  "Use the following pieces of context to answer the question at the end. If you don\x27t know the answer, just say that you don\x27t know, don\x27t try to make up an answer.\n\n{context}\n\nQuestion: {question}\nHelpful Answer:"

/-- The prompt the `stuff` QA chain sends to the LLM: the retrieved
chunks joined as context, then the question. -/
def stuffPrompt (docs : List Document) (q : String) : String :=
  (stuffTemplate.replace "{context}"
    (String.intercalate "\n\n" (docs.map Document.pageContent))).replace
    "{question}" q

/-- The rendering `ConversationBufferMemory` gives a stored history:
one `role: message` line per message; the empty history renders as `""`. -/
def renderHistory (msgs : List (String × String)) : String :=
  String.intercalate "\n" (msgs.map fun m => m.1 ++ ": " ++ m.2)

/-- Prompt of the memory-less chat chain for a human input. -/
def noMemPromptOf (input : String) : String :=
  chatTemplateNoMem.replace "{human_input}" input

/-- Prompt of the memory-backed chat chain for a stored history and a
human input. -/
def memPromptOf (hist : List (String × String)) (input : String) : String :=
  (chatTemplateMem.replace "{history}" (renderHistory hist)).replace
    "{human_input}" input

/-- The memory-less chat chain the notebook constructs
(`LLMChain(llm=llm, prompt=prompt, verbose=True)`, no memory). -/
def memLessChatChain : ChatChainCfg :=
  { llm := chatLlmCfg, template := chatTemplateNoMem, memory := none }

/-- The Redis key the chat history lives under:
`key_prefix="chat-history:"` ++ `session_id="vs-demo"`. -/
def chatHistoryKey : String := "chat-history:vs-demo"

/-- An LLM invocation as LangChain performs it under the global
`langchain.llm_cache`: with the cache unset the prompt goes straight to
the remote LLM; with the cache set the cache is consulted first, and on
a miss the fresh completion is written back.  Returns the reply, the
updated Redis contents and the emitted events. -/
def llmInvoke (env : Env) (cache : Option CacheCfg)
    (rs : List (String × RedisData)) (cfg : LlmCfg) (prompt : String) :
    String × List (String × RedisData) × List Event :=
  match cache with
  | none => (env.llm cfg prompt, rs, [.llmGenerate prompt])
  | some c =>
    match env.cacheMatch c (redisAt rs c.redisUrl).cacheEntries prompt with
    | some r => (r, rs, [.cacheRead c.redisUrl])
    | none =>
      let r := env.llm cfg prompt
      (r, cachePut rs c.redisUrl prompt r,
        [.cacheRead c.redisUrl, .llmGenerate prompt, .cacheWrite c.redisUrl])

/-- The notebook's code cells, one constructor per cell. -/
inductive Cell where
  | installPackages
  | downloadSpacyModel
  | setup
  | loadDocuments
  | splitDocuments
  | defineEmbedding
  | createVectorStore
  | setQuestion (q : String)
  | similaritySearch
  | mmrSearch
  | defineQaPrompt
  | createQaChain
  | runQa
  | enableSemanticCache
  | clearLlmCache
  | createChatNoMemory
  | createChatWithMemory
  | chatPredict (input : String)
deriving DecidableEq, Repr

/-- Execute one cell: thread the notebook state and emit the cell's
externally observable events.  A cell after an uncaught exception does
not run (the run stopped there). -/
def execCell (env : Env) (c : Cell) (st : NBState) : NBState × List Event :=
  if st.raised.isSome then (st, []) else
  match c with
  | .installPackages => (st, [])
  | .downloadSpacyModel => (st, [])
  | .setup => (st, [])
  | .loadDocuments =>
    match env.http aggsUrl with
    | .error e => ({ st with raised := some e }, [])
    | .ok r1 =>
      let fs1 := alSet st.files "aggregations.md" r1.content
      let docs1 := (env.parseMd r1.content).map fun c => ⟨c, "aggregations.md"⟩
      match env.http querySyntaxUrl with
      | .error e =>
        ({ st with files := fs1, docs := docs1, raised := some e },
          [.download aggsUrl "aggregations.md", .loadDocs "aggregations.md"])
      | .ok r2 =>
        let fs2 := alSet fs1 "query_syntax.md" r2.content
        let docs2 := (env.parseMd r2.content).map fun c => ⟨c, "query_syntax.md"⟩
        ({ st with files := fs2, docs := docs1 ++ docs2 },
          [.download aggsUrl "aggregations.md", .loadDocs "aggregations.md",
           .download querySyntaxUrl "query_syntax.md", .loadDocs "query_syntax.md"])
  | .splitDocuments =>
    ({ st with splits := env.splitChunks splitterCfg st.docs }, [.splitDocs])
  | .defineEmbedding =>
    ({ st with embeddingModel := some "textembedding-gecko" }, [])
  | .createVectorStore =>
    match st.embeddingModel with
    | none => ({ st with raised := some "NameError: embedding" }, [])
    | some _ =>
      ({ st with
          redis := indexPut st.redis env.redisUrl "redis-vs-docs" st.splits,
          vectordb := some ⟨"redis-vs-docs", env.redisUrl⟩ },
        [.embedChunks, .storeVectors "redis-vs-docs"])
  | .setQuestion q => ({ st with question := q }, [])
  | .similaritySearch =>
    match st.vectordb with
    | none => ({ st with raised := some "NameError: vectordb" }, [])
    | some v =>
      let _ := env.retrieve (indexGet st.redis v.url v.indexName) st.question 3
      (st, [.vectorQuery st.question])
  | .mmrSearch =>
    match st.vectordb with
    | none => ({ st with raised := some "NameError: vectordb" }, [])
    | some v =>
      let _ := env.mmr (indexGet st.redis v.url v.indexName) st.question 3 5
      (st, [.vectorQuery st.question])
  | .defineQaPrompt =>
    ({ st with qaChainTemplateDef := some qaTemplateDef }, [])
  | .createQaChain =>
    match st.vectordb with
    | none => ({ st with raised := some "NameError: vectordb" }, [])
    | some v =>
      ({ st with qa := some ⟨qaLlmCfg, "stuff", true, v⟩ }, [])
  | .runQa =>
    match st.qa with
    | none => ({ st with raised := some "NameError: qa" }, [])
    | some qac =>
      let retrieved :=
        env.retrieve (indexGet st.redis qac.retriever.url qac.retriever.indexName)
          st.question 4
      let prompt := stuffPrompt retrieved st.question
      let (reply, rs, evs) := llmInvoke env st.llm_cache st.redis qac.llm prompt
      ({ st with redis := rs, lastReply := some reply },
        .vectorQuery st.question :: evs)
  | .enableSemanticCache =>
    ({ st with llm_cache := some semanticCacheCfg }, [])
  | .clearLlmCache =>
    ({ st with llm_cache := none }, [])
  | .createChatNoMemory =>
    ({ st with chat := some memLessChatChain }, [])
  | .createChatWithMemory =>
    ({ st with
        redis := histSet st.redis env.libraryDefaultUrl chatHistoryKey [],
        chat := some ⟨chatMemLlmCfg, chatTemplateMem,
          some ⟨chatHistoryKey, env.libraryDefaultUrl⟩⟩ },
      [.historyClear chatHistoryKey])
  | .chatPredict input =>
    match st.chat with
    | none => ({ st with raised := some "NameError: chat" }, [])
    | some cc =>
      match cc.memory with
      | none =>
        let prompt := noMemPromptOf input
        let (reply, rs, evs) := llmInvoke env st.llm_cache st.redis cc.llm prompt
        ({ st with redis := rs, lastReply := some reply }, evs)
      | some mem =>
        let hist := histGet st.redis mem.url mem.key
        let prompt := (cc.template.replace "{history}" (renderHistory hist)).replace
          "{human_input}" input
        let (reply, rs, evs) := llmInvoke env st.llm_cache st.redis cc.llm prompt
        ({ st with
            redis := histAppend rs mem.url mem.key [("Human", input), ("AI", reply)],
            lastReply := some reply },
          .historyRead mem.key :: evs ++ [.historyAppend mem.key])

/-- Run a list of cells in order: each cell starts from the state the
previous cell produced, and the run's trace is the in-order
concatenation of the cells' traces. -/
def runCells (env : Env) : List Cell → NBState → NBState × List Event
  | [], st => (st, [])
  | c :: cs, st =>
    let p := execCell env c st
    let q := runCells env cs p.1
    (q.1, p.2 ++ q.2)

/-- Final state of a run. -/
def runState (env : Env) (cs : List Cell) (st : NBState) : NBState :=
  (runCells env cs st).1

/-- Trace of a run. -/
def runTrace (env : Env) (cs : List Cell) (st : NBState) : List Event :=
  (runCells env cs st).2

/-- Cells of use case 1 (data preparation and retrieval-augmented QA),
in notebook order. -/
def ragCells : List Cell :=
  [.installPackages, .downloadSpacyModel, .setup, .loadDocuments,
   .splitDocuments, .defineEmbedding, .createVectorStore,
   .setQuestion ragQuestion, .similaritySearch, .mmrSearch,
   .defineQaPrompt, .createQaChain, .setQuestion ragQuestion, .runQa]

/-- Cells of use case 2 (semantic cache), in notebook order. -/
def cacheCells : List Cell :=
  [.enableSemanticCache, .setQuestion cacheQuestion1, .runQa,
   .setQuestion cacheQuestion2, .runQa]

/-- Cells of use case 3 (chat memory), in notebook order.  The section
opens by setting `langchain.llm_cache = None`. -/
def chatCells : List Cell :=
  [.clearLlmCache, .createChatNoMemory,
   .chatPredict "Hi, my name is Eli. I like eating noodles and I work at Redis. What is your name?",
   .chatPredict "Who won the World Cup in 2018?",
   .chatPredict "What\x27s my name?",
   .createChatWithMemory,
   .chatPredict "Hi, my name is Adam. I have 3 kids and I like gardening. What is your name?",
   .chatPredict "How long was the last Harry Potter book?",
   .chatPredict "What\x27s the name of their school?",
   .chatPredict "What train platform was the train on?",
   .chatPredict "Do you remember my name?"]

/-- All code cells of `demo.ipynb`, in source order. -/
def notebookCells : List Cell := ragCells ++ cacheCells ++ chatCells

/-!
## Static description of the notebook's external surface

The following definitions transcribe, from the notebook's source, the
connections it opens, the configuration values it supplies to external
services, and who implements each capability.  A reviewer can check each
entry against the cited cell of `demo.ipynb`.
-/

/-- Where a connection URL the notebook uses comes from. -/
inductive UrlSource where
  /-- The externally supplied connection string (`REDIS_URL` from `.env`). -/
  | fromEnv
  /-- A string literal written in a notebook cell. -/
  | literal (u : String)
  /-- No URL passed at all: the library's own default applies. -/
  | omitted
deriving DecidableEq, Repr

/-- Resolve a `UrlSource` to the Redis URL actually connected to. -/
def resolveUrl (env : Env) : UrlSource → String
  | .fromEnv => env.redisUrl
  | .literal u => u
  | .omitted => env.libraryDefaultUrl

/-- A data-store connection the notebook opens. -/
structure Connection where
  component : String
  source : UrlSource
deriving DecidableEq, Repr

/-- Every data-store connection the notebook opens, with the provenance
of its URL:
* `Redis.from_documents(documents=splits, embedding=embedding,
  index_name="redis-vs-docs")` — no `redis_url` argument; the library
  client is configured by the externally supplied `REDIS_URL`
  (`.env`, loaded by `dotenv.load_dotenv()`; see `README.md`);
* `RedisSemanticCache(embedding=embedding,
  redis_url="redis://localhost:6379", score_threshold=0.1)` — the URL is
  a string literal in the cell;
* `RedisChatMessageHistory(key_prefix="chat-history:",
  session_id="vs-demo")` — no URL argument at all. -/
def notebookConnections : List Connection :=
  [⟨"Redis.from_documents", .fromEnv⟩,
   ⟨"RedisSemanticCache", .literal "redis://localhost:6379"⟩,
   ⟨"RedisChatMessageHistory", .omitted⟩]

/-- Kinds of configuration value the specification enumerates. -/
inductive ConfigKind where
  | connectionString
  | modelName
  | samplingParam
  | scoreThreshold
deriving DecidableEq, Repr

/-- A configuration value the notebook supplies to an external service. -/
structure ConfigItem where
  argName : String
  value : String
  kind : ConfigKind
  consumer : String
deriving DecidableEq, Repr

/-- The configuration values the notebook supplies to the external data
store, the remote LLM, and the semantic cache, transcribed from the
constructor calls in `demo.ipynb` (each is passed as written and
consumed as-is by the named library). -/
def configSurface : List ConfigItem :=
  [⟨"REDIS_URL", "(externally supplied via .env)", .connectionString, "langchain.vectorstores.Redis"⟩,
   ⟨"model_name", "textembedding-gecko", .modelName, "VertexAIEmbeddings"⟩,
   ⟨"model_name", "gemini-pro", .modelName, "VertexAI (QA chain)"⟩,
   ⟨"max_output_tokens", "512", .samplingParam, "VertexAI (QA chain)"⟩,
   ⟨"temperature", "0.3", .samplingParam, "VertexAI (QA chain)"⟩,
   ⟨"model_name", "gemini-pro", .modelName, "VertexAI (chat, no memory)"⟩,
   ⟨"max_output_tokens", "512", .samplingParam, "VertexAI (chat, no memory)"⟩,
   ⟨"temperature", "0.2", .samplingParam, "VertexAI (chat, no memory)"⟩,
   ⟨"model_name", "gemini-pro", .modelName, "VertexAI (chat, with memory)"⟩,
   ⟨"max_output_tokens", "512", .samplingParam, "VertexAI (chat, with memory)"⟩,
   ⟨"temperature", "0.3", .samplingParam, "VertexAI (chat, with memory)"⟩,
   ⟨"redis_url", "redis://localhost:6379", .connectionString, "RedisSemanticCache"⟩,
   ⟨"score_threshold", "0.1", .scoreThreshold, "RedisSemanticCache"⟩]

/-- The configuration values supplied to `RedisSemanticCache`
(the `embedding=` argument passes a component object, not a
configuration value). -/
def cacheConfigValues : List ConfigItem :=
  configSurface.filter fun i => i.consumer = "RedisSemanticCache"

/-- The capabilities the specification enumerates. -/
inductive Capability where
  | docLoading
  | textSplitting
  | embeddingGen
  | vectorSearch
  | cacheLookup
  | chatHistory
deriving DecidableEq, Repr

/-- All six capabilities. -/
def allCapabilities : List Capability :=
  [.docLoading, .textSplitting, .embeddingGen, .vectorSearch, .cacheLookup,
   .chatHistory]

/-- Who implements an operation the notebook invokes. -/
inductive Implementer where
  | externalLibrary
  | remoteApi
  | notebookCode
deriving DecidableEq, Repr

/-- One capability-performing operation the notebook invokes. -/
structure CapabilityUse where
  capability : Capability
  callee : String
  implementer : Implementer
deriving DecidableEq, Repr

/-- Every capability-performing operation invoked by `demo.ipynb`, with
the code that implements it (transcribed from the import statements and
call sites of the notebook). -/
def capabilityUses : List CapabilityUse :=
  [⟨.docLoading, "langchain.document_loaders.UnstructuredMarkdownLoader.load", .externalLibrary⟩,
   ⟨.textSplitting, "langchain.text_splitter.SpacyTextSplitter.split_documents", .externalLibrary⟩,
   ⟨.embeddingGen, "langchain_google_vertexai.VertexAIEmbeddings", .remoteApi⟩,
   ⟨.vectorSearch, "langchain.vectorstores.Redis.similarity_search_with_score", .externalLibrary⟩,
   ⟨.vectorSearch, "langchain.vectorstores.Redis.max_marginal_relevance_search", .externalLibrary⟩,
   ⟨.vectorSearch, "langchain.vectorstores.Redis.as_retriever", .externalLibrary⟩,
   ⟨.cacheLookup, "langchain.cache.RedisSemanticCache", .externalLibrary⟩,
   ⟨.chatHistory, "langchain.memory.RedisChatMessageHistory", .externalLibrary⟩,
   ⟨.chatHistory, "langchain.memory.ConversationBufferMemory", .externalLibrary⟩]

/-- A function the notebook itself defines. -/
structure NotebookDef where
  defName : String
  bodyCalleeImplementers : List Implementer
  performsCapability : Option Capability
deriving DecidableEq, Repr

/-- Every function defined in `demo.ipynb` itself: only `download_file`,
whose body is two external-library calls (`requests.get` and
`open(...).write`) and which performs none of the six capabilities
(it fetches a URL to a local file; document loading proper is
`UnstructuredMarkdownLoader.load`). -/
def notebookDefs : List NotebookDef :=
  [⟨"download_file", [.externalLibrary, .externalLibrary], none⟩]

/-- The three use cases the notebook demonstrates. -/
inductive UseCase where
  | ragQa
  | semanticCache
  | chatMemory
deriving DecidableEq, Repr

/-- The provenance of the connection URL backing each use case's
Redis-backed component (vector index, semantic cache, message log). -/
def backingConn : UseCase → UrlSource
  | .ragQa => .fromEnv
  | .semanticCache => .literal "redis://localhost:6379"
  | .chatMemory => .omitted

/-!
## Helper lemmas
-/

theorem alGet_alSet_self {α : Type} (l : List (String × α)) (k : String) (v : α) :
    alGet (alSet l k v) k = some v := by
  induction l with
  | nil => simp [alGet, alSet]
  | cons h t ih =>
    obtain ⟨k', v'⟩ := h
    by_cases hk : k' = k
    · simp [alGet, alSet, hk]
    · simp [alGet, alSet, hk, ih]

theorem redisAt_redisModify_self (rs : List (String × RedisData)) (url : String)
    (f : RedisData → RedisData) :
    redisAt (redisModify rs url f) url = f (redisAt rs url) := by
  induction rs with
  | nil => simp [redisAt, redisModify, alGet]
  | cons h t ih =>
    obtain ⟨u, d⟩ := h
    by_cases hu : u = url
    · simp [redisAt, redisModify, alGet, hu]
    · simpa [redisAt, redisModify, alGet, hu] using ih

theorem indexGet_indexPut_self (rs : List (String × RedisData))
    (url idx : String) (ds : List Document) :
    indexGet (indexPut rs url idx ds) url idx = ds := by
  simp [indexGet, indexPut, redisAt_redisModify_self, alGet_alSet_self]

theorem histGet_histSet_self (rs : List (String × RedisData))
    (url key : String) (msgs : List (String × String)) :
    histGet (histSet rs url key msgs) url key = msgs := by
  simp [histGet, histSet, redisAt_redisModify_self, alGet_alSet_self]

theorem execCell_of_raised (env : Env) (c : Cell) (st : NBState)
    (e : String) (h : st.raised = some e) : execCell env c st = (st, []) := by
  simp [execCell, h]

theorem runCells_append (env : Env) (cs ds : List Cell) (st : NBState) :
    runCells env (cs ++ ds) st =
      ((runCells env ds (runCells env cs st).1).1,
        (runCells env cs st).2 ++ (runCells env ds (runCells env cs st).1).2) := by
  induction cs generalizing st with
  | nil => simp [runCells]
  | cons c t ih => simp [runCells, ih, List.append_assoc]

theorem runCells_of_raised (env : Env) (cs : List Cell) (st : NBState)
    (e : String) (h : st.raised = some e) : runCells env cs st = (st, []) := by
  induction cs with
  | nil => simp [runCells]
  | cons c t ih => simp [runCells, execCell_of_raised env c st e h, ih]

/-!
## Claims
-/

/-- **C1.** For the retrieval-augmented QA use case, the notebook performs
exactly the pipeline load → split → embed → store → query → generate, in
that order: for every environment in which the two document downloads
succeed, the trace of the use-case-1 cells realises the pipeline stages
in exactly that monotone order (loads first, one split, one embed, one
store, then only vector queries, then the single LLM generation last),
and the final generation's prompt is built from the chunks the vector
similarity search retrieved for the user's question. -/
theorem c1_rag_pipeline (env : Env) (redis0 : List (String × RedisData))
    (r1 r2 : HttpResponse)
    (h1 : env.http aggsUrl = .ok r1) (h2 : env.http querySyntaxUrl = .ok r2) :
    (runTrace env ragCells (initState redis0)).filterMap stageOf =
      [.load, .load, .split, .embed, .store, .query, .query, .query, .generate]
    ∧ (runTrace env ragCells (initState redis0)).getLast? =
        some (.llmGenerate (stuffPrompt
          (env.retrieve (env.splitChunks splitterCfg
            ((env.parseMd r1.content).map (fun c => ⟨c, "aggregations.md"⟩) ++
             (env.parseMd r2.content).map (fun c => ⟨c, "query_syntax.md"⟩)))
            ragQuestion 4) ragQuestion)) := by
  simp [runTrace, runCells, ragCells, execCell, initState, h1, h2, llmInvoke,
    indexGet_indexPut_self, stageOf]

/-- A concrete oracle environment used to witness the theorems at a
fully evaluated input: every download returns status 200 with body
"BODY", parsing yields one page per file, splitting is the identity,
retrieval returns the first k stored chunks, the LLM echoes its prompt,
and the semantic cache never hits. -/
def demoEnv : Env :=
  { redisUrl := "redis://demo.example.com:12000",
    libraryDefaultUrl := "redis://localhost:6379/0",
    http := fun _ => .ok ⟨200, "BODY"⟩,
    parseMd := fun s => [s],
    splitChunks := fun _ ds => ds,
    retrieve := fun ds _ k => ds.take k,
    mmr := fun ds _ k _ => ds.take k,
    llm := fun _ p => "reply to " ++ p,
    cacheMatch := fun _ _ _ => none }

/-- Witness for `c1_rag_pipeline` at the concrete environment `demoEnv`. -/
theorem c1_rag_pipeline_witness :
    (runTrace demoEnv ragCells (initState [])).filterMap stageOf =
      [.load, .load, .split, .embed, .store, .query, .query, .query, .generate]
    ∧ (runTrace demoEnv ragCells (initState [])).getLast? =
        some (.llmGenerate (stuffPrompt
          (demoEnv.retrieve (demoEnv.splitChunks splitterCfg
            ((demoEnv.parseMd "BODY").map (fun c => ⟨c, "aggregations.md"⟩) ++
             (demoEnv.parseMd "BODY").map (fun c => ⟨c, "query_syntax.md"⟩)))
            ragQuestion 4) ragQuestion)) :=
  c1_rag_pipeline demoEnv [] ⟨200, "BODY"⟩ ⟨200, "BODY"⟩ rfl rfl

/-- **C2, counterexample.** The claim states that the data-store
connection string is externally supplied configuration for *every*
connection the notebook opens.  It is not: the `RedisSemanticCache`
connection's URL is the string literal `redis://localhost:6379` written
in the cell, so whenever the externally supplied `REDIS_URL` names any
other instance (here `demoEnv`, whose `REDIS_URL` is
`redis://demo.example.com:12000`), the cache connects somewhere else. -/
theorem c2_counterexample :
    (⟨"RedisSemanticCache", .literal "redis://localhost:6379"⟩ : Connection) ∈
      notebookConnections
    ∧ (UrlSource.literal "redis://localhost:6379") ≠ UrlSource.fromEnv
    ∧ resolveUrl demoEnv (.literal "redis://localhost:6379") ≠
        resolveUrl demoEnv .fromEnv := by
  refine ⟨by decide, by decide, ?_⟩
  simp [resolveUrl, demoEnv]

/-- **C2, amended.** The configuration surface is a connection string
for the data store, a model name and sampling parameters for the remote
LLM, and a similarity-score threshold for the cache; the semantic cache
is supplied exactly a distance threshold and a connection URL as
configuration values — but the cache's URL is the hardcoded literal
`redis://localhost:6379`, and only the vector-store connection is
configured by the externally supplied connection string (the
chat-history connection is opened without any URL).  The run semantics
agrees: the vector store is created at the environment's `REDIS_URL`,
and enabling the cache installs exactly the transcribed configuration. -/
theorem c2_amended :
    cacheConfigValues =
      [⟨"redis_url", "redis://localhost:6379", .connectionString, "RedisSemanticCache"⟩,
       ⟨"score_threshold", "0.1", .scoreThreshold, "RedisSemanticCache"⟩]
    ∧ (notebookConnections.map Connection.source) =
        [.fromEnv, .literal "redis://localhost:6379", .omitted]
    ∧ (notebookConnections.filter fun c => c.source == UrlSource.fromEnv).map
        Connection.component = ["Redis.from_documents"]
    ∧ semanticCacheCfg = ⟨"0.1", "redis://localhost:6379"⟩
    ∧ (runState demoEnv ragCells (initState [])).vectordb =
        some ⟨"redis-vs-docs", demoEnv.redisUrl⟩
    ∧ (runState demoEnv (ragCells ++ [.enableSemanticCache])
        (initState [])).llm_cache = some semanticCacheCfg := by
  refine ⟨by decide, by decide, by decide, by decide, ?_, ?_⟩ <;>
    simp [runState, runCells, ragCells, execCell, initState, llmInvoke, demoEnv]

/-- **C3.** Every capability of the program — document loading, text
splitting, embedding generation, vector similarity search, cache lookup,
and chat history persistence — is performed entirely inside imported
library code or the remote API: each of the six capabilities is realised
by at least one invoked operation, none of those operations is
implemented by notebook code, and the only function the notebook defines
(`download_file`) performs none of the six capabilities and consists
solely of external-library calls. -/
theorem c3_capabilities_delegated :
    (allCapabilities.all fun cap =>
      capabilityUses.any fun u => u.capability == cap) = true
    ∧ (capabilityUses.all fun u => !(u.implementer == .notebookCode)) = true
    ∧ (notebookDefs.all fun d => (d.performsCapability == none) &&
        d.bodyCalleeImplementers.all fun i => !(i == .notebookCode)) = true := by
  decide

/-- Oracle environment in which every HTTP request yields a `404
Not Found` response (`requests.get` returns such a response normally;
it raises only on connection-level failures). -/
def env404 : Env :=
  { demoEnv with http := fun _ => .ok ⟨404, "Not Found"⟩ }

/-- Oracle environment in which every HTTP request raises a
connection-level error. -/
def envConnErr : Env :=
  { demoEnv with http := fun _ => .error "ConnectionError" }

/-- **C4, counterexample.** The claim states that a failing HTTP download
of a source document surfaces its failure rather than being silently
absorbed.  It does not: `download_file` never inspects the response's
status code, so in an environment where the download yields `404 Not
Found`, `download_file` succeeds and silently writes the error body to
the target file — no failure surfaces. -/
theorem c4_counterexample :
    ¬ (∀ (env : Env) (url filename : String) (files : List (String × String)),
        (match env.http url with
         | .error _ => True
         | .ok r => 400 ≤ r.status) →
        ∃ e, download_file env url filename files = .error e) := by
  intro h
  obtain ⟨e, he⟩ := h env404 aggsUrl "aggregations.md" []
    (by simp [env404, demoEnv])
  simp [download_file, env404, demoEnv, alSet] at he

/-- **C4, amended.** The notebook adds no error handling or recovery of
its own: an exception raised by a library call propagates to the caller
unchanged (a connection-level failure of `requests.get` propagates out of
`download_file`, and once a cell has raised, no later cell runs), but an
HTTP *error response* (for example status 404) is not a surfaced failure:
whatever response `requests.get` returns, its body is written to the
target file and execution continues. -/
theorem c4_amended (env : Env) (url filename : String)
    (files : List (String × String)) :
    (∀ e, env.http url = .error e →
      download_file env url filename files = .error e)
    ∧ (∀ r, env.http url = .ok r →
        download_file env url filename files = .ok (alSet files filename r.content))
    ∧ (∀ (cs : List Cell) (st : NBState) (e : String), st.raised = some e →
        runCells env cs st = (st, [])) := by
  refine ⟨fun e he => ?_, fun r hr => ?_, fun cs st e he => ?_⟩
  · simp [download_file, he]
  · simp [download_file, hr]
  · exact runCells_of_raised env cs st e he

/-- Witness for `c4_amended` at the concrete environments `envConnErr`
and `env404`. -/
theorem c4_amended_witness :
    download_file envConnErr aggsUrl "aggregations.md" [] =
      .error "ConnectionError"
    ∧ download_file env404 aggsUrl "aggregations.md" [] =
        .ok [("aggregations.md", "Not Found")]
    ∧ runCells env404 [.runQa]
        { initState [] with raised := some "boom" } =
        ({ initState [] with raised := some "boom" }, []) :=
  ⟨(c4_amended envConnErr aggsUrl "aggregations.md" []).1 "ConnectionError" rfl,
   (c4_amended env404 aggsUrl "aggregations.md" []).2.1 ⟨404, "Not Found"⟩ rfl,
   (c4_amended env404 aggsUrl "aggregations.md" []).2.2 [.runQa]
     { initState [] with raised := some "boom" } "boom" rfl⟩

/-- A notebook state in which the QA chain is ready to run (as after the
use-case-1 cells): the question is set, the vector store and the QA
chain exist, nothing has raised, and the global LLM cache is unset. -/
def qaReadySt : NBState :=
  { initState [] with
    question := ragQuestion,
    vectordb := some ⟨"redis-vs-docs", "redis://demo.example.com:12000"⟩,
    qa := some ⟨qaLlmCfg, "stuff", true,
      ⟨"redis-vs-docs", "redis://demo.example.com:12000"⟩⟩ }

/-- Oracle environment whose semantic-cache lookup always hits
(a possible behaviour of the imported cache under its similarity
threshold). -/
def envCacheHit : Env :=
  { demoEnv with cacheMatch := fun _ _ _ => some "CACHED" }

/-- **C5, counterexample.** The claim states that no operation's
observable behaviour depends on a mutable global variable written by
another part of the notebook.  The library global `langchain.llm_cache`
— written by the enable-cache cell and the clear-cache cell — refutes
this: running the QA cell in two states that agree everywhere except in
that global produces different observable traces (with the cache set and
hitting, no LLM generation happens at all). -/
theorem c5_counterexample :
    (execCell envCacheHit .runQa
        { qaReadySt with llm_cache := some semanticCacheCfg }).2 ≠
      (execCell envCacheHit .runQa
        { qaReadySt with llm_cache := none }).2
    ∧ qaReadySt.llm_cache = none := by
  decide

/-- **C5, amended.** The notebook does have one mutable global of
engineering significance, the library global `langchain.llm_cache`: the
enable-cache cell writes the semantic-cache configuration to it, the
clear-cache cell writes `None` to it (each leaving every other state
component unchanged), and the observable behaviour of an LLM-calling
operation depends on its value. -/
theorem c5_amended (env : Env) (st : NBState) (h : st.raised = none) :
    execCell env .enableSemanticCache st =
      ({ st with llm_cache := some semanticCacheCfg }, [])
    ∧ execCell env .clearLlmCache st = ({ st with llm_cache := none }, [])
    ∧ (execCell envCacheHit .runQa
        { qaReadySt with llm_cache := some semanticCacheCfg }).2 ≠
        (execCell envCacheHit .runQa qaReadySt).2 := by
  refine ⟨by simp [execCell, h], by simp [execCell, h], by decide⟩

/-- Witness for `c5_amended` at the concrete state `qaReadySt`. -/
theorem c5_amended_witness :
    execCell demoEnv .enableSemanticCache qaReadySt =
      ({ qaReadySt with llm_cache := some semanticCacheCfg }, [])
    ∧ execCell demoEnv .clearLlmCache qaReadySt =
        ({ qaReadySt with llm_cache := none }, [])
    ∧ (execCell envCacheHit .runQa
        { qaReadySt with llm_cache := some semanticCacheCfg }).2 ≠
        (execCell envCacheHit .runQa qaReadySt).2 :=
  c5_amended demoEnv qaReadySt rfl

/-- **C6, counterexample.** The claim states that the same managed
in-memory data store backs all three use cases.  The notebook does not
guarantee that: the vector index connects via the externally supplied
connection string while the semantic cache connects to the hardcoded
literal `redis://localhost:6379`, so under `demoEnv` (whose `REDIS_URL`
is `redis://demo.example.com:12000`) the two use cases talk to
different stores. -/
theorem c6_counterexample :
    resolveUrl demoEnv (backingConn .ragQa) ≠
      resolveUrl demoEnv (backingConn .semanticCache) := by
  simp [resolveUrl, backingConn, demoEnv]

/-- **C6, amended.** The notebook demonstrates all three use cases —
retrieval-augmented QA, semantic caching, and chat memory — and each is
backed by a Redis data store acting respectively as vector index, cache,
and message log; but the vector index connects via the externally
supplied connection string, the cache via the hardcoded
`redis://localhost:6379`, and the chat history without an explicit URL,
so the vector index and the cache are backed by the same store exactly
when the external configuration names that hardcoded URL. -/
theorem c6_amended :
    Cell.runQa ∈ notebookCells
    ∧ Cell.enableSemanticCache ∈ notebookCells
    ∧ Cell.createChatWithMemory ∈ notebookCells
    ∧ backingConn .ragQa = .fromEnv
    ∧ backingConn .semanticCache = .literal "redis://localhost:6379"
    ∧ backingConn .chatMemory = .omitted
    ∧ (∀ env : Env, resolveUrl env (backingConn .ragQa) =
        resolveUrl env (backingConn .semanticCache) ↔
        env.redisUrl = "redis://localhost:6379") := by
  refine ⟨by decide, by decide, by decide, by decide, by decide, by decide, ?_⟩
  intro env
  simp [resolveUrl, backingConn]

/-- **C7.** The notebook executes its cells sequentially and
synchronously: for every environment, every starting state and every
split point `i`, the run of the whole notebook is literally the
sequential composition of the first `i` cells and the remaining cells —
the later cells start from exactly the state the earlier cells finished
in, and the run's trace is the in-order concatenation of the two
sub-runs' traces, so no two operations ever execute concurrently and
each cell's effects complete before the next cell begins. -/
theorem c7_sequential_execution (env : Env) (st : NBState) (i : Nat) :
    runCells env notebookCells st =
      ((runCells env (notebookCells.drop i)
          (runCells env (notebookCells.take i) st).1).1,
        (runCells env (notebookCells.take i) st).2 ++
          (runCells env (notebookCells.drop i)
            (runCells env (notebookCells.take i) st).1).2) := by
  conv_lhs => rw [← List.take_append_drop i notebookCells]
  exact runCells_append env _ _ st

theorem histGet_histAppend_self (rs : List (String × RedisData))
    (url key : String) (ms : List (String × String)) :
    histGet (histAppend rs url key ms) url key = histGet rs url key ++ ms := by
  simp [histGet, histAppend, redisAt_redisModify_self, alGet_alSet_self]

theorem runState_cons (env : Env) (c : Cell) (cs : List Cell) (st : NBState) :
    runState env (c :: cs) st = runState env cs (execCell env c st).1 := by
  simp [runState, runCells]

theorem runState_append (env : Env) (cs ds : List Cell) (st : NBState) :
    runState env (cs ++ ds) st = runState env ds (runState env cs st) := by
  simp [runState, runCells_append]

/-- **C8.** The chat-memory section opens by setting the global LLM
cache to `None`; from any state reached there (nothing raised), running
the whole chat section (a) touches the semantic cache in no event — no
chat LLM call is answered from the cache and none writes a cache entry,
(b) ends with the cache still unset, (c) leaves the vector index and the
QA chain exactly as they were, and (d) the clear-cache cell itself
changes nothing but the cache global; moreover the chat section is
precisely the final segment of the notebook, so every memory-less and
memory-backed chat call runs after the cache was cleared. -/
theorem c8_chat_bypasses_cache (env : Env) (st : NBState)
    (h : st.raised = none) :
    noCacheEvents (runTrace env chatCells st) = true
    ∧ (runState env chatCells st).llm_cache = none
    ∧ (runState env chatCells st).vectordb = st.vectordb
    ∧ (runState env chatCells st).qa = st.qa
    ∧ execCell env .clearLlmCache st = ({ st with llm_cache := none }, [])
    ∧ notebookCells = (ragCells ++ cacheCells) ++ chatCells
    ∧ chatCells.head? = some .clearLlmCache := by
  refine ⟨?_, ?_, ?_, ?_, by simp [execCell, h], by simp [notebookCells], by decide⟩ <;>
    simp [runTrace, runState, runCells, chatCells, execCell, h, llmInvoke,
      noCacheEvents, isCacheEvent, memLessChatChain, histGet_histSet_self,
      histGet_histAppend_self]

/-- Witness for `c8_chat_bypasses_cache` at the concrete environment
`demoEnv` and the fresh starting state. -/
theorem c8_chat_bypasses_cache_witness :
    noCacheEvents (runTrace demoEnv chatCells (initState [])) = true
    ∧ (runState demoEnv chatCells (initState [])).llm_cache = none
    ∧ (runState demoEnv chatCells (initState [])).vectordb =
        (initState []).vectordb
    ∧ (runState demoEnv chatCells (initState [])).qa = (initState []).qa
    ∧ execCell demoEnv .clearLlmCache (initState []) =
        ({ initState [] with llm_cache := none }, [])
    ∧ notebookCells = (ragCells ++ cacheCells) ++ chatCells
    ∧ chatCells.head? = some .clearLlmCache :=
  c8_chat_bypasses_cache demoEnv (initState []) rfl

/-- The first human input of the memory-backed chat demo. -/
def adamInput : String :=
  "Hi, my name is Adam. I have 3 kids and I like gardening. What is your name?"

/-- **C9.** The Redis-backed chat history for session `vs-demo` is
cleared before the memory-backed chain is constructed: from *any* state
(in particular, whatever messages earlier runs persisted under the key
`chat-history:vs-demo` in `st.redis`), running the construction cell and
the first memory-backed turn (the cache being off, as the notebook set
it) emits exactly a history clear, a history read, one LLM generation
whose prompt renders the *empty* history, and a history append — and
right after the construction cell the stored history under that key is
empty. -/
theorem c9_history_cleared_first (env : Env) (st : NBState)
    (h : st.raised = none) (hc : st.llm_cache = none) :
    runTrace env [.createChatWithMemory, .chatPredict adamInput] st =
      [.historyClear chatHistoryKey, .historyRead chatHistoryKey,
       .llmGenerate (memPromptOf [] adamInput), .historyAppend chatHistoryKey]
    ∧ histGet (runState env [.createChatWithMemory] st).redis
        env.libraryDefaultUrl chatHistoryKey = [] := by
  simp [runTrace, runState, runCells, execCell, h, hc, llmInvoke,
    histGet_histSet_self, memPromptOf, adamInput]

/-- Witness for `c9_history_cleared_first`: the starting state's Redis
already holds a persisted message under `chat-history:vs-demo`, yet the
first memory-backed turn still runs with the empty history. -/
theorem c9_history_cleared_first_witness :
    runTrace demoEnv [.createChatWithMemory, .chatPredict adamInput]
        (initState [("redis://localhost:6379/0",
          ⟨[], [], [(chatHistoryKey, [("Human", "old message")])]⟩)]) =
      [.historyClear chatHistoryKey, .historyRead chatHistoryKey,
       .llmGenerate (memPromptOf [] adamInput), .historyAppend chatHistoryKey]
    ∧ histGet (runState demoEnv [.createChatWithMemory]
        (initState [("redis://localhost:6379/0",
          ⟨[], [], [(chatHistoryKey, [("Human", "old message")])]⟩)])).redis
        demoEnv.libraryDefaultUrl chatHistoryKey = [] :=
  c9_history_cleared_first demoEnv
    (initState [("redis://localhost:6379/0",
      ⟨[], [], [(chatHistoryKey, [("Human", "old message")])]⟩)]) rfl rfl

theorem noMemPredicts_inv (env : Env) (ps : List String) (st : NBState)
    (hchat : st.chat = some memLessChatChain) (hr : st.raised = none)
    (hc : st.llm_cache = none) :
    (runState env (ps.map Cell.chatPredict) st).chat = some memLessChatChain
    ∧ (runState env (ps.map Cell.chatPredict) st).raised = none
    ∧ (runState env (ps.map Cell.chatPredict) st).llm_cache = none := by
  induction ps generalizing st with
  | nil => simp [runState, runCells, hchat, hr, hc]
  | cons p t ih =>
    have h1 : (execCell env (.chatPredict p) st).1.chat = some memLessChatChain := by
      simp [execCell, hchat, hr, hc, llmInvoke, memLessChatChain]
    have h2 : (execCell env (.chatPredict p) st).1.raised = none := by
      simp [execCell, hchat, hr, hc, llmInvoke, memLessChatChain]
    have h3 : (execCell env (.chatPredict p) st).1.llm_cache = none := by
      simp [execCell, hchat, hr, hc, llmInvoke, memLessChatChain]
    rw [List.map_cons, runState_cons]
    exact ih _ h1 h2 h3

/-- **C10.** In the memory-less chat chain, each call to `predict` is
independent of all earlier calls: after *any* prior sequence of predict
calls, a predict with the given `human_input` sends to the LLM exactly
the prompt obtained by formatting the template (whose only input
variable is `human_input`) with that input — so two runs issuing the
same input after different prior sequences send the identical prompt,
and (the LLM behaviour being the same environment) receive the identical
reply. -/
theorem c10_memoryless_independence (env : Env) (st : NBState)
    (ps1 ps2 : List String) (input : String)
    (hchat : st.chat = some memLessChatChain) (hr : st.raised = none)
    (hc : st.llm_cache = none) :
    runTrace env [.chatPredict input]
        (runState env (ps1.map Cell.chatPredict) st) =
      [.llmGenerate (noMemPromptOf input)]
    ∧ runTrace env [.chatPredict input]
        (runState env (ps1.map Cell.chatPredict) st) =
        runTrace env [.chatPredict input]
          (runState env (ps2.map Cell.chatPredict) st)
    ∧ (runState env (ps1.map Cell.chatPredict ++ [.chatPredict input])
        st).lastReply = some (env.llm chatLlmCfg (noMemPromptOf input))
    ∧ (runState env (ps1.map Cell.chatPredict ++ [.chatPredict input])
        st).lastReply =
        (runState env (ps2.map Cell.chatPredict ++ [.chatPredict input])
          st).lastReply := by
  obtain ⟨h1a, h1b, h1c⟩ := noMemPredicts_inv env ps1 st hchat hr hc
  obtain ⟨h2a, h2b, h2c⟩ := noMemPredicts_inv env ps2 st hchat hr hc
  have key : ∀ s : NBState, s.chat = some memLessChatChain → s.raised = none →
      s.llm_cache = none →
      runTrace env [.chatPredict input] s = [.llmGenerate (noMemPromptOf input)]
      ∧ (runState env [.chatPredict input] s).lastReply =
          some (env.llm chatLlmCfg (noMemPromptOf input)) := by
    intro s ha hb hcc
    constructor
    · simp [runTrace, runCells, execCell, ha, hb, hcc, llmInvoke, memLessChatChain]
    · simp [runState, runCells, execCell, ha, hb, hcc, llmInvoke, memLessChatChain]
  obtain ⟨k1t, k1r⟩ := key _ h1a h1b h1c
  obtain ⟨k2t, k2r⟩ := key _ h2a h2b h2c
  refine ⟨k1t, k1t.trans k2t.symm, ?_, ?_⟩
  · rw [runState_append]
    exact k1r
  · rw [runState_append, runState_append]
    exact k1r.trans k2r.symm

/-- A state in which the memory-less chat chain has just been
constructed. -/
def chatReadySt : NBState :=
  { initState [] with chat := some memLessChatChain }

/-- Witness for `c10_memoryless_independence`: asking
"What\x27s my name?" after the Eli introduction and after no prior call
at all sends the identical prompt and yields the identical reply. -/
theorem c10_memoryless_independence_witness :
    runTrace demoEnv [.chatPredict "What\x27s my name?"]
        (runState demoEnv
          ([("Hi, my name is Eli. I like eating noodles and I work at Redis. What is your name?")].map
            Cell.chatPredict) chatReadySt) =
      [.llmGenerate (noMemPromptOf "What\x27s my name?")]
    ∧ runTrace demoEnv [.chatPredict "What\x27s my name?"]
        (runState demoEnv
          ([("Hi, my name is Eli. I like eating noodles and I work at Redis. What is your name?")].map
            Cell.chatPredict) chatReadySt) =
        runTrace demoEnv [.chatPredict "What\x27s my name?"]
          (runState demoEnv (([] : List String).map Cell.chatPredict) chatReadySt)
    ∧ (runState demoEnv
        ([("Hi, my name is Eli. I like eating noodles and I work at Redis. What is your name?")].map
          Cell.chatPredict ++ [.chatPredict "What\x27s my name?"])
        chatReadySt).lastReply =
        some (demoEnv.llm chatLlmCfg (noMemPromptOf "What\x27s my name?"))
    ∧ (runState demoEnv
        ([("Hi, my name is Eli. I like eating noodles and I work at Redis. What is your name?")].map
          Cell.chatPredict ++ [.chatPredict "What\x27s my name?"])
        chatReadySt).lastReply =
        (runState demoEnv (([] : List String).map Cell.chatPredict ++
          [.chatPredict "What\x27s my name?"]) chatReadySt).lastReply :=
  c10_memoryless_independence demoEnv chatReadySt
    ["Hi, my name is Eli. I like eating noodles and I work at Redis. What is your name?"]
    [] "What\x27s my name?" rfl rfl rfl
